import Mathlib

/-!
Shallow embedding of the technical-analysis core of the crypto-chatbot
repository.  Numbers of the TypeScript source (JS doubles) are modelled as
real numbers; JS sparse arrays (`ema[i]` assigned only for some indices,
`undefined` elsewhere) are modelled as functions `ℕ → Option ℝ`; optional
record fields are `Option ℝ`.  Network-bound code is abstracted by explicit
function parameters, noted at each definition.
-/

namespace Crypto

/-- The `CoinData` interface of the source: one candle plus optional
indicator annotations.  The TS field `open` is a Lean keyword, hence the
guillemets. -/
structure CoinData where
  timestamp : String
  «open» : ℝ
  high : ℝ
  low : ℝ
  close : ℝ
  volume : Option ℝ := none
  ema_20 : Option ℝ := none
  rsi_14 : Option ℝ := none
  macd : Option ℝ := none
  macd_signal : Option ℝ := none
  bb_upper : Option ℝ := none
  bb_lower : Option ℝ := none
  obv : Option ℝ := none

instance : Inhabited CoinData :=
  ⟨{ timestamp := "", «open» := 0, high := 0, low := 0, close := 0 }⟩

/-- The `TimeframeData` interface of the source. -/
structure TimeframeData where
  timeframe : String
  duration : String
  data : List CoinData
  analysis : String
  trend : String
  volatility : ℝ
  priceChange : ℝ
  volume24h : Option ℝ := none

instance : Inhabited TimeframeData :=
  ⟨{ timeframe := ""
     duration := ""
     data := []
     analysis := ""
     trend := ""
     volatility := 0
     priceChange := 0 }⟩

/-- The `MultiTimeframeAnalysis` interface of the source. -/
structure MultiTimeframeAnalysis where
  symbol : String
  timestamp : String
  timeframes : List TimeframeData
  overallSentiment : String
  riskLevel : String
  tradingRecommendation : String

/-- One entry of the `TIMEFRAME_CONFIG` table. -/
structure TfConfig where
  days : ℕ
  interval : String
  points : ℕ

/-- The `TIMEFRAME_CONFIG` object of the source, as a lookup from the
timeframe code; a missing key gives `none` (JS `undefined`). -/
def TIMEFRAME_CONFIG (tf : String) : Option TfConfig :=
  if tf = "15m" then some ⟨1, "minutely", 96⟩
  else if tf = "30m" then some ⟨2, "minutely", 96⟩
  else if tf = "1h" then some ⟨7, "hourly", 168⟩
  else if tf = "12h" then some ⟨30, "daily", 60⟩
  else if tf = "24h" then some ⟨30, "daily", 30⟩
  else if tf = "7d" then some ⟨180, "daily", 26⟩
  else if tf = "30d" then some ⟨365, "daily", 12⟩
  else if tf = "6M" then some ⟨1095, "daily", 6⟩
  else if tf = "1Y" then some ⟨1825, "daily", 5⟩
  else none

/-- The nine timeframe codes iterated by `getMultiTimeframeAnalysis`. -/
def timeframesList : List String :=
  ["15m", "30m", "1h", "12h", "24h", "7d", "30d", "6M", "1Y"]

/-- The `timeframeLabels` object of `getMultiTimeframeAnalysis`; only the nine
codes of `timeframesList` are ever looked up. -/
def timeframeLabels (tf : String) : String :=
  if tf = "15m" then "15 Menit"
  else if tf = "30m" then "30 Menit"
  else if tf = "1h" then "1 Jam"
  else if tf = "12h" then "12 Jam"
  else if tf = "24h" then "24 Jam"
  else if tf = "7d" then "7 Hari"
  else if tf = "30d" then "30 Hari"
  else if tf = "6M" then "6 Bulan"
  else if tf = "1Y" then "1 Tahun"
  else ""

/-- Value of the sparse EMA array at offset `k` past the seed index
`period - 1`: offset `0` is the seed `ema[period-1] = sum/period`, where the
source loop sums the first `min period data.length` entries; offset `k+1`
is the recurrence at array index `period + k`. -/
noncomputable def emaAt (data : List ℝ) (period : ℕ) : ℕ → ℝ
  | 0 => (data.take period).sum / period
  | k + 1 =>
      (data.getD (period + k) 0 - emaAt data period k) * (2 / (period + 1)) +
        emaAt data period k

/-- `calculateEMA` of the source, as the resulting sparse array: index
`period - 1` is always assigned (the seed), index `i` with
`period ≤ i < data.length` is assigned by the loop, all other indices stay
`undefined`. -/
noncomputable def calculateEMA (data : List ℝ) (period : ℕ) (i : ℕ) : Option ℝ :=
  if i + 1 = period ∨ (period ≤ i ∧ i < data.length) then
    some (emaAt data period (i + 1 - period))
  else none

/-- The `gains` array of `calculateRSI`: `gains[j] = max(data[j+1]-data[j], 0)`
written as the source's conditional. -/
noncomputable def gainsOf (data : List ℝ) : List ℝ :=
  List.zipWith (fun prev cur => if cur - prev > 0 then cur - prev else 0)
    data data.tail

/-- The `losses` array of `calculateRSI`:
`losses[j] = (data[j+1]-data[j] < 0) ? |data[j+1]-data[j]| : 0`. -/
noncomputable def lossesOf (data : List ℝ) : List ℝ :=
  List.zipWith (fun prev cur => if cur - prev < 0 then |cur - prev| else 0)
    data data.tail

/-- `calculateRSI` of the source, as the resulting sparse array over the
step index `i` (the index into `gains`/`losses`): defined for
`period - 1 ≤ i < gains.length`; `slice(i-period+1, i+1)` is
`drop (i+1-period) ∘ take period`. -/
noncomputable def calculateRSI (data : List ℝ) (period : ℕ) (i : ℕ) : Option ℝ :=
  let gains := gainsOf data
  let losses := lossesOf data
  if period - 1 ≤ i ∧ i < gains.length then
    let avgGain := ((gains.drop (i + 1 - period)).take period).sum / period
    let avgLoss := ((losses.drop (i + 1 - period)).take period).sum / period
    if avgLoss = 0 then some 100
    else some (100 - 100 / (1 + avgGain / avgLoss))
  else none

/-- Result record of `calculateBollingerBands`, three sparse arrays. -/
structure BollingerBands where
  sma : ℕ → Option ℝ
  upperBand : ℕ → Option ℝ
  lowerBand : ℕ → Option ℝ

/-- `calculateBollingerBands` of the source: rolling mean and population
standard deviation of the trailing `period` closes, defined for
`period - 1 ≤ i < data.length`. -/
noncomputable def calculateBollingerBands (data : List ℝ) (period : ℕ)
    (stdDev : ℝ) : BollingerBands :=
  let dom := fun i => period - 1 ≤ i ∧ i < data.length
  let slice := fun i => (data.drop (i + 1 - period)).take period
  let mean := fun i => (slice i).sum / (period : ℝ)
  let variance := fun i =>
    ((slice i).map (fun v => (v - mean i) ^ 2)).sum / (period : ℝ)
  let sd := fun i => Real.sqrt (variance i)
  { sma := fun i => if dom i then some (mean i) else none
    upperBand := fun i => if dom i then some (mean i + sd i * stdDev) else none
    lowerBand := fun i => if dom i then some (mean i - sd i * stdDev) else none }

/-- JS `x || d` applied to a number-or-`undefined` value `x`: both
`undefined` and the falsy number `0` fall back to `d`. -/
noncomputable def jsOr (x : Option ℝ) (d : ℝ) : ℝ :=
  match x with
  | none => d
  | some v => if v = 0 then d else v

/-- `applyIndicators` of the source.  Note the source reads `rsi14[index-1]`,
which at `index = 0` is the JS access `rsi14[-1] = undefined`, modelled by the
`index = 0` test. -/
noncomputable def applyIndicators (data : List CoinData) : List CoinData :=
  let closes := data.map (·.close)
  let bb := calculateBollingerBands closes 20 2
  data.mapIdx fun index item =>
    { item with
      ema_20 := some (jsOr (calculateEMA closes 20 index) 0)
      rsi_14 := some (jsOr
        (if index = 0 then none else calculateRSI closes 14 (index - 1)) 50)
      bb_upper := some (jsOr (bb.upperBand index) 0)
      bb_lower := some (jsOr (bb.lowerBand index) 0)
      macd := some 0
      macd_signal := some 0
      obv := some 0 }

/-- `detectTrend` of the source; `??` on the optional fields is `Option.getD`. -/
noncomputable def detectTrend (data : List CoinData) : String :=
  if data.length < 5 then "Insufficient data"
  else
    let latest := data.getD (data.length - 1) default
    let prev := data.getD (data.length - 5) default
    let latestEma := latest.ema_20.getD 0
    let prevEma := prev.ema_20.getD 0
    let latestRsi := latest.rsi_14.getD 50
    if latestEma > prevEma ∧ latestRsi > 55 then "Uptrend"
    else if latestEma < prevEma ∧ latestRsi < 45 then "Downtrend"
    else "Sideways"

/-- `calculateVolatility` of the source: annualized standard deviation of the
log returns of consecutive closes; `data.slice(1).map((item, i) => ...)` is
the zip of the series with its tail. -/
noncomputable def calculateVolatility (data : List CoinData) : ℝ :=
  if data.length < 2 then 0
  else
    let returns := List.zipWith
      (fun prev cur => Real.log (cur.close / prev.close)) data data.tail
    let mean := returns.sum / (returns.length : ℝ)
    let variance :=
      (returns.map (fun r => (r - mean) ^ 2)).sum / (returns.length : ℝ)
    Real.sqrt variance * Real.sqrt 252

/-- `calculatePriceChange` of the source. -/
noncomputable def calculatePriceChange (data : List CoinData) : ℝ :=
  if data.length < 2 then 0
  else
    let firstPrice := (data.getD 0 default).close
    let lastPrice := (data.getD (data.length - 1) default).close
    (lastPrice - firstPrice) / firstPrice * 100

/-- The unsupported-timeframe guard of `getMarketDataByTimeframe`.  Everything
past the guard is network IO with fallbacks and is abstracted as `rest`; a
thrown `Error` is the `Except.error` carrying its message. -/
def getMarketDataByTimeframe
    (rest : TfConfig → Except String (List CoinData))
    (_coinId timeframe : String) : Except String (List CoinData) :=
  match TIMEFRAME_CONFIG timeframe with
  | none => Except.error ("Timeframe " ++ timeframe ++ " tidak didukung")
  | some config => rest config

/-- The accumulator of the counting loop in `generateOverallAnalysis`. -/
structure TallyState where
  bullishCount : ℕ
  bearishCount : ℕ
  totalVolatility : ℝ
  validTimeframes : ℕ

/-- One iteration of the counting loop of `generateOverallAnalysis`. -/
noncomputable def tallyStep (acc : TallyState) (tf : TimeframeData) : TallyState :=
  if tf.data.length > 0 then
    let acc' := { acc with
      totalVolatility := acc.totalVolatility + tf.volatility
      validTimeframes := acc.validTimeframes + 1 }
    if tf.trend = "Uptrend" then
      { acc' with bullishCount := acc'.bullishCount + 1 }
    else if tf.trend = "Downtrend" then
      { acc' with bearishCount := acc'.bearishCount + 1 }
    else acc'
  else acc

/-- Result record of `generateOverallAnalysis`. -/
structure OverallAnalysis where
  sentiment : String
  risk : String
  recommendation : String

/-- `generateOverallAnalysis` of the source. -/
noncomputable def generateOverallAnalysis (timeframes : List TimeframeData) :
    OverallAnalysis :=
  let s := timeframes.foldl tallyStep ⟨0, 0, 0, 0⟩
  let avgVolatility : ℝ :=
    if s.validTimeframes > 0 then s.totalVolatility / s.validTimeframes else 0
  let sentiment :=
    if s.bullishCount > s.bearishCount + 2 then "Bullish"
    else if s.bearishCount > s.bullishCount + 2 then "Bearish"
    else if s.bullishCount > s.bearishCount then "Slightly Bullish"
    else if s.bearishCount > s.bullishCount then "Slightly Bearish"
    else "Neutral"
  let risk :=
    if avgVolatility > 0.4 then "High"
    else if avgVolatility < 0.15 then "Low"
    else "Medium"
  let recommendation :=
    if sentiment = "Bullish" ∧ risk ≠ "High" then "Buy"
    else if sentiment = "Bearish" ∧ risk ≠ "High" then "Sell"
    else if risk = "High" then "Wait"
    else "Hold"
  ⟨sentiment, risk, recommendation⟩

/-- `getMultiTimeframeAnalysis` of the source, past the `getCoinId`
resolution step.  Network- and clock-dependent pieces are abstract
parameters: `fetchData tf` stands for the outcome of
`await getMarketDataByTimeframe(coinId, tf)` (its value, or the thrown
error's message), `genAnalysis` for `generateTimeframeAnalysis` (narrative
text built by floating-point formatting, irrelevant to the claims), and
`now` for `new Date().toISOString()`.  Inside the loop only the `await` can
throw — the indicator and classifier functions are total — so the
`try`/`catch` is the match on `fetchData`'s outcome.  The initial
`Neutral`/`Medium`/`Hold` fields are unconditionally overwritten at the end,
so the record is built directly from `generateOverallAnalysis`.

The body of the per-timeframe loop is factored out as `timeframeEntry`: the
`try` block on a successful `await` (`Except.ok`), the `catch` fallback push
on a thrown error (`Except.error`). -/
noncomputable def timeframeEntry
    (fetchData : String → Except String (List CoinData))
    (genAnalysis : List CoinData → String → String → ℝ → ℝ → String)
    (timeframe : String) : TimeframeData :=
  match fetchData timeframe with
  | Except.ok data =>
      let dataWithIndicators := applyIndicators data
      let trend := detectTrend dataWithIndicators
      let volatility := calculateVolatility data
      let priceChange := calculatePriceChange data
      { timeframe := timeframe
        duration := timeframeLabels timeframe
        data := dataWithIndicators
        analysis := genAnalysis dataWithIndicators timeframe trend volatility
          priceChange
        trend := trend
        volatility := volatility
        priceChange := priceChange }
  | Except.error _ =>
      { timeframe := timeframe
        duration := timeframeLabels timeframe
        data := []
        analysis := "Analisis untuk timeframe " ++ timeframe ++
          " tidak tersedia saat ini."
        trend := "Unknown"
        volatility := 0
        priceChange := 0 }

noncomputable def getMultiTimeframeAnalysis
    (fetchData : String → Except String (List CoinData))
    (genAnalysis : List CoinData → String → String → ℝ → ℝ → String)
    (now : String) (symbol : String) : MultiTimeframeAnalysis :=
  let entries := timeframesList.map (timeframeEntry fetchData genAnalysis)
  let overall := generateOverallAnalysis entries
  { symbol := symbol.toUpper
    timestamp := now
    timeframes := entries
    overallSentiment := overall.sentiment
    riskLevel := overall.risk
    tradingRecommendation := overall.recommendation }

/-- Spec-side count of bullish timeframes: "Uptrend" among timeframes with
non-empty data. -/
def specBullish (tfs : List TimeframeData) : ℕ :=
  tfs.countP fun tf => !tf.data.isEmpty && tf.trend == "Uptrend"

/-- Spec-side count of bearish timeframes: "Downtrend" among timeframes with
non-empty data. -/
def specBearish (tfs : List TimeframeData) : ℕ :=
  tfs.countP fun tf => !tf.data.isEmpty && tf.trend == "Downtrend"

/-- Spec-side sentiment formula of §4.4 of the spec. -/
def specSentiment (tfs : List TimeframeData) : String :=
  if specBullish tfs > specBearish tfs + 2 then "Bullish"
  else if specBearish tfs > specBullish tfs + 2 then "Bearish"
  else if specBullish tfs > specBearish tfs then "Slightly Bullish"
  else if specBearish tfs > specBullish tfs then "Slightly Bearish"
  else "Neutral"

/-- A degenerate concrete candle whose four prices equal `c`, used to build
concrete inputs. -/
def candleOf (c : ℝ) : CoinData :=
  { timestamp := "", «open» := c, high := c, low := c, close := c }

/-- A concrete timeframe report with one candle and a given trend, used to
build concrete inputs for the synthesizer. -/
def reportOf (tf trend : String) : TimeframeData :=
  { timeframe := tf
    duration := tf
    data := [candleOf 1]
    analysis := ""
    trend := trend
    volatility := 0
    priceChange := 0 }

/-- `List.get?` through `List.mapIdx`. -/
theorem mapIdx_get? {α : Type} {β : Type} (l : List α) (f : ℕ → α → β) (i : ℕ) :
    (l.mapIdx f).get? i = (l.get? i).map (f i) := by
  rcases Nat.lt_or_ge i l.length with h | h
  · have h2 : i < (l.mapIdx f).length := by
      simpa [List.length_mapIdx] using h
    rw [List.get?_eq_get h2, List.get?_eq_get h, List.get_mapIdx l f i h]
    rfl
  · have h2 : (l.mapIdx f).length ≤ i := by simpa [List.length_mapIdx] using h
    rw [List.get?_eq_none.2 h2, List.get?_eq_none.2 h]
    rfl

/-- C9: for every candle series of length at least 1, `applyIndicators`
returns a series where each output candle preserves the input candle's
timestamp, open, high, low, close and volume fields exactly, changing only
indicator fields. -/
theorem C9_preserves_ohlcv (data : List CoinData) (_hlen : 1 ≤ data.length)
    (i : ℕ) (hi : i < data.length) :
    ∃ entry orig, (applyIndicators data).get? i = some entry ∧
      data.get? i = some orig ∧
      entry.timestamp = orig.timestamp ∧ entry.«open» = orig.«open» ∧
      entry.high = orig.high ∧ entry.low = orig.low ∧
      entry.close = orig.close ∧ entry.volume = orig.volume := by
  have horig : data.get? i = some (data.get ⟨i, hi⟩) := List.get?_eq_get hi
  have h1 : (applyIndicators data).get? i = (data.get? i).map _ :=
    mapIdx_get? data _ i
  rw [horig] at h1
  exact ⟨_, _, h1, horig, rfl, rfl, rfl, rfl, rfl, rfl⟩

/-- C9 witness: the preservation theorem instantiated at a one-candle series. -/
theorem C9_witness :
    ∃ entry orig,
      (applyIndicators [candleOf 10]).get? 0 = some entry ∧
      ([candleOf 10] : List CoinData).get? 0 = some orig ∧
      entry.timestamp = orig.timestamp ∧ entry.«open» = orig.«open» ∧
      entry.high = orig.high ∧ entry.low = orig.low ∧
      entry.close = orig.close ∧ entry.volume = orig.volume :=
  C9_preserves_ohlcv [candleOf 10] (by simp) 0 (by simp)

/-- C8: for every requested timeframe code that is not one of the nine
configured codes, `getMarketDataByTimeframe` fails fast with an error naming
the unsupported timeframe, before any data source is consulted. -/
theorem C8_unsupported_timeframe
    (rest : TfConfig → Except String (List CoinData)) (coinId tf : String)
    (h : tf ∉ timeframesList) :
    getMarketDataByTimeframe rest coinId tf =
      Except.error ("Timeframe " ++ tf ++ " tidak didukung") := by
  have hc : TIMEFRAME_CONFIG tf = none := by
    unfold TIMEFRAME_CONFIG
    split_ifs <;> first
      | rfl
      | exact absurd (by simp [timeframesList, *]) h
  simp [getMarketDataByTimeframe, hc]

/-- C8 witness: the unknown code "5m" is rejected with the naming error, for
a data source that would have succeeded. -/
theorem C8_witness :
    getMarketDataByTimeframe (fun _ => Except.ok [candleOf 1]) "bitcoin" "5m" =
      Except.error ("Timeframe " ++ "5m" ++ " tidak didukung") :=
  C8_unsupported_timeframe (fun _ => Except.ok [candleOf 1]) "bitcoin" "5m"
    (by decide)

/-- C2 counterexample: a two-candle series has fewer than 5 candles, yet
`calculatePriceChange` returns 100 (not 0) on it, and the trend string is
"Insufficient data", not the claimed lower-case "insufficient data". -/
theorem C2_counterexample :
    ([candleOf 100, candleOf 200] : List CoinData).length < 5 ∧
    detectTrend [candleOf 100, candleOf 200] ≠ "insufficient data" ∧
    calculatePriceChange [candleOf 100, candleOf 200] = 100 := by
  refine ⟨by decide, by simp [detectTrend], ?_⟩
  simp [calculatePriceChange, candleOf]
  norm_num

/-- C2 amended: on fewer than 5 annotated candles `detectTrend` reports
"Insufficient data" (capitalised), while `calculateVolatility` and
`calculatePriceChange` report 0 only when the series has fewer than 2
candles; with 2 to 4 candles they are computed from the data. -/
theorem C2_short_series (data : List CoinData) (h : data.length < 5) :
    detectTrend data = "Insufficient data" ∧
    (data.length < 2 →
      calculateVolatility data = 0 ∧ calculatePriceChange data = 0) := by
  refine ⟨by simp [detectTrend, h], fun h2 => ⟨?_, ?_⟩⟩
  · simp [calculateVolatility, h2]
  · simp [calculatePriceChange, h2]

/-- C2 witness: the amended degenerate behaviour at the empty series. -/
theorem C2_witness :
    detectTrend ([] : List CoinData) = "Insufficient data" ∧
    (([] : List CoinData).length < 2 →
      calculateVolatility [] = 0 ∧ calculatePriceChange [] = 0) :=
  C2_short_series [] (by decide)

/-- C7: `calculateEMA` leaves indices before `period - 1` undefined, seeds
index `period - 1` with the arithmetic mean of the first `period` closes,
satisfies the recurrence `EMA[i] = (close[i] - EMA[i-1])·(2/(period+1)) +
EMA[i-1]` for `period ≤ i < length`, and on the concrete inputs of the spec
gives `EMA[4] = 10` for `[10,10,10,10,10]` with period 5, and
`EMA[5] = (20-10)·(2/6)+10` once a sixth close 20 is appended. -/
theorem C7_ema (data : List ℝ) (period : ℕ) (hp : 0 < period) :
    (∀ i, i + 1 < period → calculateEMA data period i = none) ∧
    (period ≤ data.length →
      calculateEMA data period (period - 1) =
        some ((data.take period).sum / (period : ℝ))) ∧
    (∀ i, period ≤ i → i < data.length →
      ∃ prev, calculateEMA data period (i - 1) = some prev ∧
        calculateEMA data period i =
          some ((data.getD i 0 - prev) * (2 / ((period : ℝ) + 1)) + prev)) ∧
    calculateEMA [(10 : ℝ), 10, 10, 10, 10] 5 4 = some 10 ∧
    calculateEMA [(10 : ℝ), 10, 10, 10, 10, 20] 5 5 =
      some ((20 - 10) * (2 / 6) + 10) := by
  refine ⟨?_, ?_, ?_, ?_, ?_⟩
  · intro i hlt
    rw [calculateEMA, if_neg]
    rintro (h | ⟨h, -⟩) <;> omega
  · intro _
    rw [calculateEMA, if_pos (Or.inl (by omega))]
    have h0 : period - 1 + 1 - period = 0 := by omega
    rw [h0]
    rfl
  · intro i h1 h2
    refine ⟨emaAt data period (i - period), ?_, ?_⟩
    · rw [calculateEMA, if_pos]
      · have he : i - 1 + 1 - period = i - period := by omega
        rw [he]
      · rcases Nat.eq_or_lt_of_le h1 with h | h
        · exact Or.inl (by omega)
        · exact Or.inr ⟨by omega, by omega⟩
    · rw [calculateEMA, if_pos (Or.inr ⟨h1, h2⟩)]
      have he : i + 1 - period = (i - period) + 1 := by omega
      rw [he, emaAt]
      have hi : period + (i - period) = i := by omega
      rw [hi]
  · rw [calculateEMA, if_pos (Or.inl rfl)]
    show some (emaAt [(10 : ℝ), 10, 10, 10, 10] 5 0) = _
    rw [emaAt]
    norm_num
  · rw [calculateEMA, if_pos (Or.inr ⟨by omega, by simp⟩)]
    show some (emaAt [(10 : ℝ), 10, 10, 10, 10, 20] 5 1) = _
    rw [emaAt, emaAt]
    norm_num

/-- C7 witness: the EMA theorem instantiated at the spec's concrete closes,
with the recurrence instantiated at index 5 of the six-close series. -/
theorem C7_witness :
    (calculateEMA [(10 : ℝ), 10, 10, 10, 10] 5 2 = none) ∧
    (calculateEMA [(10 : ℝ), 10, 10, 10, 10] 5 4 =
      some (([(10 : ℝ), 10, 10, 10, 10].take 5).sum / (5 : ℝ))) ∧
    (∃ prev, calculateEMA [(10 : ℝ), 10, 10, 10, 10, 20] 5 4 = some prev ∧
      calculateEMA [(10 : ℝ), 10, 10, 10, 10, 20] 5 5 =
        some (([(10 : ℝ), 10, 10, 10, 10, 20].getD 5 0 - prev) *
          (2 / ((5 : ℝ) + 1)) + prev)) := by
  refine ⟨(C7_ema [(10 : ℝ), 10, 10, 10, 10] 5 (by decide)).1 2 (by decide),
    ?_, ?_⟩
  · have h := (C7_ema [(10 : ℝ), 10, 10, 10, 10] 5 (by decide)).2.1 (by decide)
    exact h
  · have h := (C7_ema [(10 : ℝ), 10, 10, 10, 10, 20] 5 (by decide)).2.2.1 5
      (by decide) (by decide)
    exact h

/-- C6: on at least 5 annotated candles, `detectTrend` compares the latest
candle to the candle five positions earlier: "Uptrend" iff the latest EMA
exceeds the earlier EMA and the latest RSI exceeds 55, "Downtrend" iff the
latest EMA is below the earlier EMA and the latest RSI is below 45, and
"Sideways" otherwise, with missing EMA read as 0 and missing RSI as 50. -/
theorem C6_trend_rule (data : List CoinData) (h5 : 5 ≤ data.length) :
    (detectTrend data = "Uptrend" ↔
      (data.getD (data.length - 1) default).ema_20.getD 0 >
        (data.getD (data.length - 5) default).ema_20.getD 0 ∧
      (data.getD (data.length - 1) default).rsi_14.getD 50 > 55) ∧
    (detectTrend data = "Downtrend" ↔
      (data.getD (data.length - 1) default).ema_20.getD 0 <
        (data.getD (data.length - 5) default).ema_20.getD 0 ∧
      (data.getD (data.length - 1) default).rsi_14.getD 50 < 45) ∧
    (detectTrend data = "Sideways" ↔
      ¬((data.getD (data.length - 1) default).ema_20.getD 0 >
          (data.getD (data.length - 5) default).ema_20.getD 0 ∧
        (data.getD (data.length - 1) default).rsi_14.getD 50 > 55) ∧
      ¬((data.getD (data.length - 1) default).ema_20.getD 0 <
          (data.getD (data.length - 5) default).ema_20.getD 0 ∧
        (data.getD (data.length - 1) default).rsi_14.getD 50 < 45)) := by
  rw [detectTrend, if_neg (by omega)]
  dsimp only
  split_ifs with hup hdown
  · obtain ⟨h1, h2⟩ := hup
    refine ⟨?_, ?_, ?_⟩ <;> simp_all
    intro h
    linarith
  · obtain ⟨h1, h2⟩ := hdown
    refine ⟨?_, ?_, ?_⟩ <;> simp_all
  · refine ⟨?_, ?_, ?_⟩ <;> simp_all

/-- C6 witness: the trend rule instantiated at a concrete 5-candle series
whose latest EMA (2) exceeds the EMA five back (1) with RSI 60, so the first
equivalence yields "Uptrend" there. -/
theorem C6_witness :
    (detectTrend [{ candleOf 1 with ema_20 := some 1 }, candleOf 1,
        candleOf 1, candleOf 1,
        { candleOf 2 with ema_20 := some 2, rsi_14 := some 60 }] = "Uptrend" ↔
      (([{ candleOf 1 with ema_20 := some 1 }, candleOf 1, candleOf 1,
          candleOf 1,
          { candleOf 2 with ema_20 := some 2, rsi_14 := some 60 }] :
            List CoinData).getD 4 default).ema_20.getD 0 >
        (([{ candleOf 1 with ema_20 := some 1 }, candleOf 1, candleOf 1,
            candleOf 1,
            { candleOf 2 with ema_20 := some 2, rsi_14 := some 60 }] :
              List CoinData).getD 0 default).ema_20.getD 0 ∧
      (([{ candleOf 1 with ema_20 := some 1 }, candleOf 1, candleOf 1,
          candleOf 1,
          { candleOf 2 with ema_20 := some 2, rsi_14 := some 60 }] :
            List CoinData).getD 4 default).rsi_14.getD 50 > 55) :=
  (C6_trend_rule [{ candleOf 1 with ema_20 := some 1 }, candleOf 1,
    candleOf 1, candleOf 1,
    { candleOf 2 with ema_20 := some 2, rsi_14 := some 60 }] (by simp)).1

/-- C1 counterexample: on a one-candle series, index 0 lacks the history for
every indicator, yet `applyIndicators` annotates it with `ema_20 = 0`,
`bb_upper = 0`, `bb_lower = 0` and `rsi_14 = 50` — fabricated defaults in
place of the claimed "not yet available" markers. -/
theorem C1_counterexample :
    ∃ entry, (applyIndicators [candleOf 10]).get? 0 = some entry ∧
      entry.ema_20 = some 0 ∧ entry.bb_upper = some 0 ∧
      entry.bb_lower = some 0 ∧ entry.rsi_14 = some 50 := by
  have h1 : (applyIndicators [candleOf 10]).get? 0 =
      (([candleOf 10] : List CoinData).get? 0).map _ :=
    mapIdx_get? [candleOf 10] _ 0
  refine ⟨_, h1.trans rfl, ?_, ?_, ?_, ?_⟩
  · show some (jsOr (calculateEMA [(candleOf 10).close] 20 0) 0) = some 0
    rw [calculateEMA, if_neg (by simp)]
    rfl
  · show some (jsOr
      ((calculateBollingerBands [(candleOf 10).close] 20 2).upperBand 0) 0) =
        some 0
    rw [calculateBollingerBands]
    simp [jsOr]
  · show some (jsOr
      ((calculateBollingerBands [(candleOf 10).close] 20 2).lowerBand 0) 0) =
        some 0
    rw [calculateBollingerBands]
    simp [jsOr]
  · rfl

/-- C1 amended: at indices before an indicator's window is seeded,
`applyIndicators` does not attach a marker distinct from real values: it
fabricates the defaults `ema_20 = 0`, `bb_upper = 0`, `bb_lower = 0`
(indices below 19) and `rsi_14 = 50` (indices below 14) via the `|| 0` and
`|| 50` fallbacks. -/
theorem C1_fabricated_defaults (data : List CoinData) (i : ℕ)
    (hi : i < data.length) :
    ∃ entry, (applyIndicators data).get? i = some entry ∧
      (i < 19 → entry.ema_20 = some 0 ∧ entry.bb_upper = some 0 ∧
        entry.bb_lower = some 0) ∧
      (i < 14 → entry.rsi_14 = some 50) := by
  have horig : data.get? i = some (data.get ⟨i, hi⟩) := List.get?_eq_get hi
  have h1 : (applyIndicators data).get? i = (data.get? i).map _ :=
    mapIdx_get? data _ i
  rw [horig] at h1
  refine ⟨_, h1, fun h19 => ⟨?_, ?_, ?_⟩, fun h14 => ?_⟩
  · show some (jsOr (calculateEMA (data.map (·.close)) 20 i) 0) = some 0
    rw [calculateEMA, if_neg (by omega)]
    rfl
  · show some (jsOr
      ((calculateBollingerBands (data.map (·.close)) 20 2).upperBand i) 0) =
        some 0
    rw [calculateBollingerBands]
    simp only []
    rw [if_neg (by omega)]
    rfl
  · show some (jsOr
      ((calculateBollingerBands (data.map (·.close)) 20 2).lowerBand i) 0) =
        some 0
    rw [calculateBollingerBands]
    simp only []
    rw [if_neg (by omega)]
    rfl
  · show some (jsOr (if i = 0 then none
      else calculateRSI (data.map (·.close)) 14 (i - 1)) 50) = some 50
    rcases Nat.eq_zero_or_pos i with h0 | h0
    · rw [if_pos h0]
      rfl
    · rw [if_neg (by omega), calculateRSI]
      dsimp only
      rw [if_neg (by omega)]
      rfl

/-- C1 witness: the fabricated defaults at index 2 of a three-candle series. -/
theorem C1_witness :
    ∃ entry,
      (applyIndicators [candleOf 1, candleOf 2, candleOf 3]).get? 2 =
        some entry ∧
      (2 < 19 → entry.ema_20 = some 0 ∧ entry.bb_upper = some 0 ∧
        entry.bb_lower = some 0) ∧
      (2 < 14 → entry.rsi_14 = some 50) :=
  C1_fabricated_defaults [candleOf 1, candleOf 2, candleOf 3] 2 (by simp)

/-- One step of the counting loop adds 1 to the bullish count exactly for a
non-empty "Uptrend" report. -/
theorem tallyStep_bullish (acc : TallyState) (tf : TimeframeData) :
    (tallyStep acc tf).bullishCount = acc.bullishCount +
      (if 0 < tf.data.length ∧ tf.trend = "Uptrend" then 1 else 0) := by
  unfold tallyStep
  split_ifs <;> simp_all

/-- One step of the counting loop adds 1 to the bearish count exactly for a
non-empty "Downtrend" report. -/
theorem tallyStep_bearish (acc : TallyState) (tf : TimeframeData) :
    (tallyStep acc tf).bearishCount = acc.bearishCount +
      (if 0 < tf.data.length ∧ tf.trend = "Downtrend" then 1 else 0) := by
  unfold tallyStep
  split_ifs <;> simp_all

/-- The counting loop computes the spec-side bullish/bearish counts. -/
theorem tally_counts (tfs : List TimeframeData) (acc : TallyState) :
    (tfs.foldl tallyStep acc).bullishCount =
      acc.bullishCount + specBullish tfs ∧
    (tfs.foldl tallyStep acc).bearishCount =
      acc.bearishCount + specBearish tfs := by
  induction tfs generalizing acc with
  | nil => simp [specBullish, specBearish]
  | cons tf rest ih =>
    rcases ih (tallyStep acc tf) with ⟨hb, hr⟩
    rw [List.foldl_cons, hb, hr, tallyStep_bullish, tallyStep_bearish]
    simp only [specBullish, specBearish, List.countP_cons]
    constructor <;>
      · split_ifs <;> simp_all [List.isEmpty_iff, List.length_pos] <;> omega

/-- A report with empty data leaves the counting accumulator unchanged. -/
theorem tally_skips_empty (tfs : List TimeframeData) (acc : TallyState)
    (h : ∀ tf ∈ tfs, tf.data = []) : tfs.foldl tallyStep acc = acc := by
  induction tfs generalizing acc with
  | nil => rfl
  | cons tf rest ih =>
    have h0 : tf.data = [] := h tf (List.mem_cons_self tf rest)
    have h1 : tallyStep acc tf = acc := by
      unfold tallyStep
      rw [if_neg (by simp [h0])]
    rw [List.foldl_cons, h1]
    exact ih acc fun t ht => h t (by simp [ht])

/-- C5: the overall sentiment counts "Uptrend" vs "Downtrend" only among
timeframes with non-empty data and follows the threshold formula
(`bullish > bearish + 2` → "Bullish", `bearish > bullish + 2` → "Bearish",
then strict majority → "Slightly Bullish"/"Slightly Bearish", else
"Neutral"); in particular 7 "Uptrend" and 0 "Downtrend" among 9 non-empty
reports yields "Bullish". -/
theorem C5_overall_sentiment :
    (∀ tfs : List TimeframeData,
      (generateOverallAnalysis tfs).sentiment = specSentiment tfs) ∧
    (generateOverallAnalysis
      [reportOf "15m" "Uptrend", reportOf "30m" "Uptrend",
       reportOf "1h" "Uptrend", reportOf "12h" "Uptrend",
       reportOf "24h" "Uptrend", reportOf "7d" "Uptrend",
       reportOf "30d" "Uptrend", reportOf "6M" "Sideways",
       reportOf "1Y" "Sideways"]).sentiment = "Bullish" := by
  have hmain : ∀ tfs : List TimeframeData,
      (generateOverallAnalysis tfs).sentiment = specSentiment tfs := by
    intro tfs
    have h := tally_counts tfs ⟨0, 0, 0, 0⟩
    rw [generateOverallAnalysis]
    dsimp only
    rw [h.1, h.2, specSentiment]
    norm_num
  refine ⟨hmain, ?_⟩
  rw [hmain]
  decide

/-- C10: when every timeframe report has empty data, the synthesizer
returns sentiment "Neutral", risk "Low" (the average volatility defaults to
0, below the 0.15 threshold) and recommendation "Hold". -/
theorem C10_all_empty (tfs : List TimeframeData)
    (h : ∀ tf ∈ tfs, tf.data = []) :
    generateOverallAnalysis tfs =
      ⟨"Neutral", "Low", "Hold"⟩ := by
  have hfold := tally_skips_empty tfs ⟨0, 0, 0, 0⟩ h
  rw [generateOverallAnalysis, hfold]
  norm_num
  decide

/-- C10 witness: a synthesis over two failed (empty-data) reports yields
Neutral/Low/Hold. -/
theorem C10_witness :
    generateOverallAnalysis
      [⟨"15m", "15 Menit", [], "", "Unknown", 0, 0, none⟩,
       ⟨"30m", "30 Menit", [], "", "Unknown", 0, 0, none⟩] =
      ⟨"Neutral", "Low", "Hold"⟩ :=
  C10_all_empty _ (by simp)

/-- Every loop iteration labels its entry with its own timeframe code,
whether the data acquisition succeeded or failed. -/
theorem timeframeEntry_timeframe
    (fetchData : String → Except String (List CoinData))
    (genAnalysis : List CoinData → String → String → ℝ → ℝ → String)
    (tf : String) :
    (timeframeEntry fetchData genAnalysis tf).timeframe = tf := by
  rw [timeframeEntry]
  cases fetchData tf <;> rfl

/-- C3: per-timeframe failure isolation of `getMultiTimeframeAnalysis`.  The
call always returns exactly one entry per configured timeframe, in order;
a timeframe whose data acquisition fails gets the degenerate report (empty
data, trend "Unknown", volatility 0, priceChange 0); a timeframe whose
acquisition succeeds still runs the full pipeline. -/
theorem C3_failure_isolation
    (fetchData : String → Except String (List CoinData))
    (genAnalysis : List CoinData → String → String → ℝ → ℝ → String)
    (now symbol : String) :
    (getMultiTimeframeAnalysis fetchData genAnalysis now
      symbol).timeframes.length = 9 ∧
    (getMultiTimeframeAnalysis fetchData genAnalysis now symbol).timeframes.map
      TimeframeData.timeframe = timeframesList ∧
    (∀ i tf e, timeframesList.get? i = some tf →
      fetchData tf = Except.error e →
      ∃ entry, (getMultiTimeframeAnalysis fetchData genAnalysis now
          symbol).timeframes.get? i = some entry ∧
        entry.data = [] ∧ entry.trend = "Unknown" ∧
        entry.volatility = 0 ∧ entry.priceChange = 0) ∧
    (∀ i tf d, timeframesList.get? i = some tf →
      fetchData tf = Except.ok d →
      ∃ entry, (getMultiTimeframeAnalysis fetchData genAnalysis now
          symbol).timeframes.get? i = some entry ∧
        entry.data = applyIndicators d ∧
        entry.trend = detectTrend (applyIndicators d) ∧
        entry.volatility = calculateVolatility d ∧
        entry.priceChange = calculatePriceChange d) := by
  have htf : (getMultiTimeframeAnalysis fetchData genAnalysis now
      symbol).timeframes =
      timeframesList.map (timeframeEntry fetchData genAnalysis) := rfl
  refine ⟨?_, ?_, ?_, ?_⟩
  · rw [htf]
    simp [timeframesList]
  · rw [htf, List.map_map]
    have h : ∀ a ∈ timeframesList,
        (TimeframeData.timeframe ∘ timeframeEntry fetchData genAnalysis) a =
          id a := fun a _ => timeframeEntry_timeframe fetchData genAnalysis a
    rw [List.map_congr_left h, List.map_id]
  · intro i tf e hi hf
    refine ⟨timeframeEntry fetchData genAnalysis tf, ?_, ?_, ?_, ?_, ?_⟩
    · rw [htf, List.get?_map, hi]
      rfl
    all_goals rw [timeframeEntry, hf]
  · intro i tf d hi hf
    refine ⟨timeframeEntry fetchData genAnalysis tf, ?_, ?_, ?_, ?_, ?_⟩
    · rw [htf, List.get?_map, hi]
      rfl
    all_goals rw [timeframeEntry, hf]

/-- C3 witness: with a source that fails on "1h" (index 2) and succeeds with
a single candle elsewhere, the failed slot carries the degenerate report and
the neighbouring "30m" slot (index 1) still carries the computed report. -/
theorem C3_witness :
    (∃ entry, (getMultiTimeframeAnalysis
        (fun tf => if tf = "1h" then Except.error "timeout"
          else Except.ok [candleOf 1])
        (fun _ _ _ _ _ => "") "2024-01-01" "btc").timeframes.get? 2 =
          some entry ∧
      entry.data = [] ∧ entry.trend = "Unknown" ∧
      entry.volatility = 0 ∧ entry.priceChange = 0) ∧
    (∃ entry, (getMultiTimeframeAnalysis
        (fun tf => if tf = "1h" then Except.error "timeout"
          else Except.ok [candleOf 1])
        (fun _ _ _ _ _ => "") "2024-01-01" "btc").timeframes.get? 1 =
          some entry ∧
      entry.data = applyIndicators [candleOf 1] ∧
      entry.trend = detectTrend (applyIndicators [candleOf 1]) ∧
      entry.volatility = calculateVolatility [candleOf 1] ∧
      entry.priceChange = calculatePriceChange [candleOf 1]) :=
  ⟨(C3_failure_isolation
      (fun tf => if tf = "1h" then Except.error "timeout"
        else Except.ok [candleOf 1])
      (fun _ _ _ _ _ => "") "2024-01-01" "btc").2.2.1 2 "1h" "timeout"
      (by decide) (by simp),
   (C3_failure_isolation
      (fun tf => if tf = "1h" then Except.error "timeout"
        else Except.ok [candleOf 1])
      (fun _ _ _ _ _ => "") "2024-01-01" "btc").2.2.2 1 "30m" [candleOf 1]
      (by decide) (by simp)⟩

/-- `gains` and `losses` have the same length (both zip the closes with
their tail). -/
theorem length_lossesOf (data : List ℝ) :
    (lossesOf data).length = (gainsOf data).length := by
  simp [gainsOf, lossesOf]

/-- On a strictly decreasing close sequence every gain is 0. -/
theorem gainsOf_zero_of_decreasing (data : List ℝ)
    (h : List.Chain' (fun a b => b < a) data) :
    ∀ x ∈ gainsOf data, x = 0 := by
  induction data with
  | nil => simp [gainsOf]
  | cons a t ih =>
    cases t with
    | nil => simp [gainsOf]
    | cons b t2 =>
      intro x hx
      rw [gainsOf, List.tail_cons, List.zipWith_cons_cons] at hx
      rcases List.mem_cons.1 hx with h1 | h2
      · have hba : b < a := (List.chain'_cons.1 h).1
        rw [h1, if_neg (by linarith)]
      · exact ih (List.chain'_cons.1 h).2 x h2

/-- On a strictly decreasing close sequence every loss is positive. -/
theorem lossesOf_pos_of_decreasing (data : List ℝ)
    (h : List.Chain' (fun a b => b < a) data) :
    ∀ x ∈ lossesOf data, 0 < x := by
  induction data with
  | nil => simp [lossesOf]
  | cons a t ih =>
    cases t with
    | nil => simp [lossesOf]
    | cons b t2 =>
      intro x hx
      rw [lossesOf, List.tail_cons, List.zipWith_cons_cons] at hx
      rcases List.mem_cons.1 hx with h1 | h2
      · have hba : b < a := (List.chain'_cons.1 h).1
        rw [h1, if_pos (by linarith)]
        rw [abs_of_neg (by linarith)]
        linarith
      · exact ih (List.chain'_cons.1 h).2 x h2

/-- On a strictly increasing close sequence every loss is 0. -/
theorem lossesOf_zero_of_increasing (data : List ℝ)
    (h : List.Chain' (fun a b => a < b) data) :
    ∀ x ∈ lossesOf data, x = 0 := by
  induction data with
  | nil => simp [lossesOf]
  | cons a t ih =>
    cases t with
    | nil => simp [lossesOf]
    | cons b t2 =>
      intro x hx
      rw [lossesOf, List.tail_cons, List.zipWith_cons_cons] at hx
      rcases List.mem_cons.1 hx with h1 | h2
      · have hba : a < b := (List.chain'_cons.1 h).1
        rw [h1, if_neg (by linarith)]
      · exact ih (List.chain'_cons.1 h).2 x h2

/-- `calculateRSI` saturates at 100 when the trailing window's total (hence
mean) loss is exactly zero. -/
theorem calculateRSI_meanloss_zero (data : List ℝ) (i : ℕ) (h13 : 13 ≤ i)
    (hlen : i < (gainsOf data).length)
    (hml : (((lossesOf data).drop (i + 1 - 14)).take 14).sum = 0) :
    calculateRSI data 14 i = some 100 := by
  rw [calculateRSI]
  dsimp only
  rw [if_pos ⟨by omega, hlen⟩, if_pos (by rw [hml]; simp)]

/-- `calculateRSI` yields 0 on a window of a strictly decreasing close
sequence. -/
theorem calculateRSI_decreasing (data : List ℝ) (i : ℕ) (h13 : 13 ≤ i)
    (hlen : i < (gainsOf data).length)
    (hdec : List.Chain' (fun a b => b < a) data) :
    calculateRSI data 14 i = some 0 := by
  have hg0 : (((gainsOf data).drop (i + 1 - 14)).take 14).sum = 0 :=
    List.sum_eq_zero fun x hx =>
      gainsOf_zero_of_decreasing data hdec x
        (List.mem_of_mem_drop (List.mem_of_mem_take hx))
  have hlpos : 0 < (((lossesOf data).drop (i + 1 - 14)).take 14).sum := by
    apply List.sum_pos
    · intro x hx
      exact lossesOf_pos_of_decreasing data hdec x
        (List.mem_of_mem_drop (List.mem_of_mem_take hx))
    · have hlen2 : (((lossesOf data).drop (i + 1 - 14)).take 14).length =
          min 14 ((lossesOf data).length - (i + 1 - 14)) := by
        simp
      intro hnil
      rw [hnil] at hlen2
      rw [length_lossesOf] at hlen2
      simp at hlen2
      omega
  rw [calculateRSI]
  dsimp only
  rw [if_pos ⟨by omega, hlen⟩, if_neg (div_pos hlpos (by norm_num)).ne']
  rw [hg0]
  norm_num

/-- The annotated `rsi_14` field equals the sparse RSI value at the previous
step index, except that a value of exactly 0 is replaced by the fallback 50
(the JS `|| 50`). -/
theorem applyIndicators_rsi (data : List CoinData) (i : ℕ)
    (hi : i < data.length) (hne : i ≠ 0) (v : ℝ)
    (hv : calculateRSI (data.map (·.close)) 14 (i - 1) = some v) :
    ∃ entry, (applyIndicators data).get? i = some entry ∧
      entry.rsi_14 = some (if v = 0 then 50 else v) := by
  have horig : data.get? i = some (data.get ⟨i, hi⟩) := List.get?_eq_get hi
  have h1 : (applyIndicators data).get? i = (data.get? i).map _ :=
    mapIdx_get? data _ i
  rw [horig] at h1
  refine ⟨_, h1, ?_⟩
  show some (jsOr (if i = 0 then none
    else calculateRSI (data.map (·.close)) 14 (i - 1)) 50) = _
  rw [if_neg hne, hv, jsOr]

/-- C4 counterexample: on the strictly decreasing closes 15,14,…,1 the RSI
at the last defined step index is exactly 0, but the annotated `rsi_14` of
`applyIndicators` at the corresponding candle is 50, not the claimed 0 —
the `|| 50` fallback conflates a real RSI of 0 with a missing value. -/
theorem C4_counterexample :
    calculateRSI [(15 : ℝ), 14, 13, 12, 11, 10, 9, 8, 7, 6, 5, 4, 3, 2, 1]
      14 13 = some 0 ∧
    (∃ entry, (applyIndicators [candleOf 15, candleOf 14, candleOf 13,
        candleOf 12, candleOf 11, candleOf 10, candleOf 9, candleOf 8,
        candleOf 7, candleOf 6, candleOf 5, candleOf 4, candleOf 3,
        candleOf 2, candleOf 1]).get? 14 = some entry ∧
      entry.rsi_14 = some 50 ∧ entry.rsi_14 ≠ some 0) := by
  have hdec : List.Chain' (fun a b => b < a)
      [(15 : ℝ), 14, 13, 12, 11, 10, 9, 8, 7, 6, 5, 4, 3, 2, 1] := by
    norm_num [List.chain'_cons]
  have hrsi : calculateRSI
      [(15 : ℝ), 14, 13, 12, 11, 10, 9, 8, 7, 6, 5, 4, 3, 2, 1] 14 13 =
      some 0 :=
    calculateRSI_decreasing _ 13 (by omega) (by simp [gainsOf]) hdec
  refine ⟨hrsi, ?_⟩
  have hmap : (List.map (fun x => CoinData.close x)
      [candleOf 15, candleOf 14, candleOf 13, candleOf 12, candleOf 11,
       candleOf 10, candleOf 9, candleOf 8, candleOf 7, candleOf 6,
       candleOf 5, candleOf 4, candleOf 3, candleOf 2, candleOf 1]) =
      [(15 : ℝ), 14, 13, 12, 11, 10, 9, 8, 7, 6, 5, 4, 3, 2, 1] := by
    simp [candleOf]
  obtain ⟨entry, he, hfield⟩ := applyIndicators_rsi
    [candleOf 15, candleOf 14, candleOf 13, candleOf 12, candleOf 11,
     candleOf 10, candleOf 9, candleOf 8, candleOf 7, candleOf 6,
     candleOf 5, candleOf 4, candleOf 3, candleOf 2, candleOf 1]
    14 (by simp) (by omega) 0 (by rw [hmap]; exact hrsi)
  rw [if_pos rfl] at hfield
  refine ⟨entry, he, hfield, ?_⟩
  rw [hfield]
  norm_num

/-- C4 amended: `calculateRSI` yields 100 at every defined index whose
trailing full-period window has total (hence mean) loss exactly zero, and 0
on a strictly decreasing close sequence; `applyIndicators` carries every
nonzero RSI value — in particular the 100 saturation — into the annotated
`rsi_14`, but where the RSI is exactly 0 the annotation is the fallback 50,
because the `|| 50` fallback treats 0 like a missing value. -/
theorem C4_rsi_saturation :
    (∀ (data : List ℝ) (i : ℕ), 13 ≤ i → i < (gainsOf data).length →
      (((lossesOf data).drop (i + 1 - 14)).take 14).sum = 0 →
      calculateRSI data 14 i = some 100) ∧
    (∀ (data : List ℝ) (i : ℕ), 13 ≤ i → i < (gainsOf data).length →
      List.Chain' (fun a b => b < a) data →
      calculateRSI data 14 i = some 0) ∧
    (∀ (data : List CoinData) (i : ℕ) (v : ℝ), i < data.length → i ≠ 0 →
      v ≠ 0 → calculateRSI (data.map (·.close)) 14 (i - 1) = some v →
      ∃ entry, (applyIndicators data).get? i = some entry ∧
        entry.rsi_14 = some v) ∧
    (∀ (data : List CoinData) (i : ℕ), i < data.length → i ≠ 0 →
      calculateRSI (data.map (·.close)) 14 (i - 1) = some 0 →
      ∃ entry, (applyIndicators data).get? i = some entry ∧
        entry.rsi_14 = some 50) := by
  refine ⟨calculateRSI_meanloss_zero, calculateRSI_decreasing, ?_, ?_⟩
  · intro data i v hi hne hv0 hv
    obtain ⟨entry, he, hfield⟩ := applyIndicators_rsi data i hi hne v hv
    rw [if_neg hv0] at hfield
    exact ⟨entry, he, hfield⟩
  · intro data i hi hne hv
    obtain ⟨entry, he, hfield⟩ := applyIndicators_rsi data i hi hne 0 hv
    rw [if_pos rfl] at hfield
    exact ⟨entry, he, hfield⟩

/-- C4 witness: the saturation theorem instantiated on strictly increasing
closes 1,…,15 (window loss 0, so RSI 100, carried into the annotation) and
on the strictly decreasing closes 15,…,1 (RSI 0, annotated as 50). -/
theorem C4_witness :
    calculateRSI [(1 : ℝ), 2, 3, 4, 5, 6, 7, 8, 9, 10, 11, 12, 13, 14, 15]
      14 13 = some 100 ∧
    (∃ entry, (applyIndicators [candleOf 1, candleOf 2, candleOf 3,
        candleOf 4, candleOf 5, candleOf 6, candleOf 7, candleOf 8,
        candleOf 9, candleOf 10, candleOf 11, candleOf 12, candleOf 13,
        candleOf 14, candleOf 15]).get? 14 = some entry ∧
      entry.rsi_14 = some 100) ∧
    calculateRSI [(15 : ℝ), 14, 13, 12, 11, 10, 9, 8, 7, 6, 5, 4, 3, 2, 1]
      14 13 = some 0 := by
  have hinc : List.Chain' (fun a b => a < b)
      [(1 : ℝ), 2, 3, 4, 5, 6, 7, 8, 9, 10, 11, 12, 13, 14, 15] := by
    norm_num [List.chain'_cons]
  have hml : (((lossesOf [(1 : ℝ), 2, 3, 4, 5, 6, 7, 8, 9, 10, 11, 12, 13,
      14, 15]).drop (13 + 1 - 14)).take 14).sum = 0 :=
    List.sum_eq_zero fun x hx =>
      lossesOf_zero_of_increasing _ hinc x
        (List.mem_of_mem_drop (List.mem_of_mem_take hx))
  have h100 : calculateRSI
      [(1 : ℝ), 2, 3, 4, 5, 6, 7, 8, 9, 10, 11, 12, 13, 14, 15] 14 13 =
      some 100 :=
    C4_rsi_saturation.1 _ 13 (by omega) (by simp [gainsOf]) hml
  have hdec : List.Chain' (fun a b => b < a)
      [(15 : ℝ), 14, 13, 12, 11, 10, 9, 8, 7, 6, 5, 4, 3, 2, 1] := by
    norm_num [List.chain'_cons]
  have hmap : (List.map (fun x => CoinData.close x)
      [candleOf 1, candleOf 2, candleOf 3, candleOf 4, candleOf 5,
       candleOf 6, candleOf 7, candleOf 8, candleOf 9, candleOf 10,
       candleOf 11, candleOf 12, candleOf 13, candleOf 14, candleOf 15]) =
      [(1 : ℝ), 2, 3, 4, 5, 6, 7, 8, 9, 10, 11, 12, 13, 14, 15] := by
    simp [candleOf]
  refine ⟨h100, ?_, C4_rsi_saturation.2.1 _ 13 (by omega)
    (by simp [gainsOf]) hdec⟩
  exact C4_rsi_saturation.2.2.1
    [candleOf 1, candleOf 2, candleOf 3, candleOf 4, candleOf 5,
     candleOf 6, candleOf 7, candleOf 8, candleOf 9, candleOf 10,
     candleOf 11, candleOf 12, candleOf 13, candleOf 14, candleOf 15]
    14 100 (by simp) (by omega) (by norm_num) (by rw [hmap]; exact h100)

end Crypto
